import Mathlib

/-!
Verification of the QR-code telegram bot's dialogue engine, validators and
payload encoders.  All definitions are shallow embeddings of the Python source:
`qr_generator/utils.py` (validators), `qr_generator/templates.py` (encoders),
`config.py` and `bot.py` (localization and the dialogue controller).

Modelling conventions:
* machine strings are Lean `String` (a list of unicode code points, matching
  Python `str` at the code-point level);
* Python character predicates (`str.isdigit`, `\s`, `str.lower`) are modelled
  on the ASCII range plus the standard unicode whitespace list, which covers
  every character the embedded code paths compare against;
* a Python regex used with `re.match(r'^...$', s)` matches the whole string or
  the whole string minus one trailing newline (the semantics of `$`); this is
  encoded once in `pyMatchDollar`;
* CPython `float(...)` parsing is modelled as exact decimal reading: the
  result is a pair `(n : Int, k : Nat)` standing for `n / 10 ^ k`
  (digit-group underscores and `inf`/`nan` literals are left unparsed; every
  comparison the code performs on the repository's inputs has a margin far
  wider than double rounding, so the exact-decimal model agrees with IEEE
  doubles on them);
* `dict` literals are association lists; a lookup in a Python dict literal is
  a lookup in the reversed list (later duplicate keys shadow earlier ones);
* an unhandled Python exception inside a telegram handler aborts the handler:
  the model returns the state unchanged on those paths.
-/

/-- Python `\s` (and `str.strip` / `str.isspace`) on a single code point. -/
def pyIsSpace (c : Char) : Bool :=
  c == ' ' || c == '\t' || c == '\n' || c == '\r' || c == '\x0b' || c == '\x0c' ||
  c.toNat == 0x1c || c.toNat == 0x1d || c.toNat == 0x1e || c.toNat == 0x1f ||
  c.toNat == 0x85 || c.toNat == 0xa0 || c.toNat == 0x1680 ||
  (0x2000 ≤ c.toNat && c.toNat ≤ 0x200a) ||
  c.toNat == 0x2028 || c.toNat == 0x2029 || c.toNat == 0x202f ||
  c.toNat == 0x205f || c.toNat == 0x3000

/-- Python `str.strip()`: drop leading and trailing whitespace. -/
def pyStrip (cs : List Char) : List Char :=
  ((cs.dropWhile pyIsSpace).reverse.dropWhile pyIsSpace).reverse

/-- Python `str.lower()` (ASCII model). -/
def pyLower (s : String) : String :=
  String.mk (s.data.map Char.toLower)

/-- Value of a list of decimal digits, most significant first. -/
def digitsVal (cs : List Char) : Nat :=
  cs.foldl (fun a c => 10 * a + (c.toNat - '0'.toNat)) 0

/-- `bool(re.match(r'^core$', s))` in Python: `$` also matches just before a
single newline that ends the string. -/
def pyMatchDollar (core : List Char → Bool) (s : String) : Bool :=
  core s.data || ((s.data.getLast? == some '\n') && core s.data.dropLast)

/-- Lookup in a Python `dict` literal built from an association list: later
duplicate keys shadow earlier ones, so we look up in the reversed list. -/
def dictGet {α : Type} (l : List (String × α)) (k : String) : Option α :=
  l.reverse.lookup k

/-! ### Validators — `qr_generator/utils.py`, class `ValidationUtils` -/

/-- The character class `[0-9\s\-\(\)]` of the phone regex. -/
def phoneClass (c : Char) : Bool :=
  c.isDigit || pyIsSpace c || c == '-' || c == '(' || c == ')'

/-- Whole-string semantics of `[\+]?[0-9\s\-\(\)]{10,}` (the `?` may or may
not consume a leading `+`; both alternatives are tried). -/
def phoneCore (cs : List Char) : Bool :=
  (match cs with
   | '+' :: rest => decide (10 ≤ rest.length) && rest.all phoneClass
   | _ => false) ||
  (decide (10 ≤ cs.length) && cs.all phoneClass)

/-- `ValidationUtils.validate_phone`: `re.match(r'^[\+]?[0-9\s\-\(\)]{10,}$', phone)`. -/
def validate_phone (phone : String) : Bool :=
  pyMatchDollar phoneCore phone

/-- Local-part class `[a-zA-Z0-9._%+-]` of the email regex. -/
def emailLocalClass (c : Char) : Bool :=
  c.isAlphanum || c == '.' || c == '_' || c == '%' || c == '+' || c == '-'

/-- Domain class `[a-zA-Z0-9.-]` of the email regex. -/
def emailDomainClass (c : Char) : Bool :=
  c.isAlphanum || c == '.' || c == '-'

/-- Whole-string semantics of `[a-zA-Z0-9.-]+\.[a-zA-Z]{2,}`: some nonempty
all-domain-class prefix, a literal dot, then two or more letters. -/
def emailDomainOk (cs : List Char) : Bool :=
  (List.range cs.length).any (fun i =>
    decide (1 ≤ i) && (cs.take i).all emailDomainClass &&
    (match cs.drop i with
     | '.' :: tld => decide (2 ≤ tld.length) && tld.all Char.isAlpha
     | _ => false))

/-- Whole-string semantics of `[a-zA-Z0-9._%+-]+@[a-zA-Z0-9.-]+\.[a-zA-Z]{2,}`.
Since `@` is not in the local class, the local part is exactly the segment
before the first `@`. -/
def emailCore (cs : List Char) : Bool :=
  let localPart := cs.takeWhile (fun c => c != '@')
  match cs.drop localPart.length with
  | '@' :: domain => !localPart.isEmpty && localPart.all emailLocalClass && emailDomainOk domain
  | _ => false

/-- `ValidationUtils.validate_email`:
`re.match(r'^[a-zA-Z0-9._%+-]+@[a-zA-Z0-9.-]+\.[a-zA-Z]{2,}$', email)`. -/
def validate_email (email : String) : Bool :=
  pyMatchDollar emailCore email

/-- One DNS label: `[A-Za-z0-9]([A-Za-z0-9-]{0,61}[A-Za-z0-9])?` — length 1
to 63, alphanumeric ends, alphanumeric-or-hyphen inside. -/
def urlLabelOk (l : List Char) : Bool :=
  !l.isEmpty && decide (l.length ≤ 63) &&
  (match l.head? with | some c => c.isAlphanum | none => false) &&
  (match l.getLast? with | some c => c.isAlphanum | none => false) &&
  l.all (fun c => c.isAlphanum || c == '-')

/-- Whole-string semantics of `(label\.)+`: the string ends with a dot and
splits on dots into one or more valid labels.  (A label cannot contain a dot,
so the decomposition is unique.) -/
def urlHostDotOk (cs : List Char) : Bool :=
  let parts := cs.splitOn '.'
  decide (2 ≤ parts.length) && (parts.getLast? == some ([] : List Char)) &&
  parts.dropLast.all urlLabelOk

/-- Remainder semantics of `(/.*)?$` where `.` does not match a newline. -/
def urlPathOk : List Char → Bool
  | [] => true
  | '/' :: rest => rest.all (fun c => c != '\n')
  | _ => false

/-- Remainder semantics of `(:[0-9]{1,5})?(/.*)?$`. -/
def urlPortPathOk (cs : List Char) : Bool :=
  urlPathOk cs ||
  (match cs with
   | ':' :: rest =>
     (List.range' 1 5).any (fun k =>
       decide (k ≤ rest.length) && (rest.take k).all Char.isDigit && urlPathOk (rest.drop k))
   | _ => false)

/-- Remainder semantics of `[A-Za-z]{2,6}(:[0-9]{1,5})?(/.*)?$` (the TLD then
optional port and path). -/
def urlTailOk (cs : List Char) : Bool :=
  (List.range' 2 5).any (fun k =>
    decide (k ≤ cs.length) && (cs.take k).all Char.isAlpha && urlPortPathOk (cs.drop k))

/-- Whole-string semantics of the URL regex body after the optional scheme:
`([A-Za-z0-9]([A-Za-z0-9-]{0,61}[A-Za-z0-9])?\.)+[A-Za-z]{2,6}(:...)?(/...)?`. -/
def urlBodyOk (cs : List Char) : Bool :=
  (List.range (cs.length + 1)).any (fun i =>
    urlHostDotOk (cs.take i) && urlTailOk (cs.drop i))

/-- Whole-string semantics of the URL regex including `(https?://)?` with
`re.IGNORECASE`. -/
def urlCore (cs : List Char) : Bool :=
  let low := cs.map Char.toLower
  (if low.take 8 = "https://".data then urlBodyOk (cs.drop 8) else false) ||
  (if low.take 7 = "http://".data then urlBodyOk (cs.drop 7) else false) ||
  urlBodyOk cs

/-- `ValidationUtils.validate_url`. -/
def validate_url (url : String) : Bool :=
  pyMatchDollar urlCore url

/-- Gregorian leap year, as used by `datetime`. -/
def isLeapYear (y : Nat) : Bool :=
  (y % 4 == 0 && y % 100 != 0) || y % 400 == 0

/-- Days in a month, as enforced by the `datetime` constructor. -/
def daysInMonth (y m : Nat) : Nat :=
  if m == 2 then (if isLeapYear y then 29 else 28)
  else if m == 4 || m == 6 || m == 9 || m == 11 then 30
  else 31

/-- Candidate parses of CPython strptime `%m`, regex `1[0-2]|0[1-9]|[1-9]`:
each candidate is the month value and the unconsumed remainder. -/
def monthCands : List Char → List (Nat × List Char)
  | a :: b :: rest =>
    (if a == '1' && (b == '0' || b == '1' || b == '2') then
      [(10 + (b.toNat - '0'.toNat), rest)] else []) ++
    (if a == '0' && b.isDigit && b != '0' then [(b.toNat - '0'.toNat, rest)] else []) ++
    (if a.isDigit && a != '0' then [(a.toNat - '0'.toNat, b :: rest)] else [])
  | [a] => if a.isDigit && a != '0' then [(a.toNat - '0'.toNat, [])] else []
  | [] => []

/-- Candidate parses of CPython strptime `%d`, regex `3[01]|[12]\d|0[1-9]|[1-9]`. -/
def dayCands : List Char → List (Nat × List Char)
  | a :: b :: rest =>
    (if a == '3' && (b == '0' || b == '1') then [(30 + (b.toNat - '0'.toNat), rest)] else []) ++
    (if (a == '1' || a == '2') && b.isDigit then
      [(10 * (a.toNat - '0'.toNat) + (b.toNat - '0'.toNat), rest)] else []) ++
    (if a == '0' && b.isDigit && b != '0' then [(b.toNat - '0'.toNat, rest)] else []) ++
    (if a.isDigit && a != '0' then [(a.toNat - '0'.toNat, b :: rest)] else [])
  | [a] => if a.isDigit && a != '0' then [(a.toNat - '0'.toNat, [])] else []
  | [] => []

/-- Candidate parses of CPython strptime `%H`, regex `2[0-3]|[0-1]\d|\d`. -/
def hourCands : List Char → List (Nat × List Char)
  | a :: b :: rest =>
    (if a == '2' && (b == '0' || b == '1' || b == '2' || b == '3') then
      [(20 + (b.toNat - '0'.toNat), rest)] else []) ++
    (if (a == '0' || a == '1') && b.isDigit then
      [(10 * (a.toNat - '0'.toNat) + (b.toNat - '0'.toNat), rest)] else []) ++
    (if a.isDigit then [(a.toNat - '0'.toNat, b :: rest)] else [])
  | [a] => if a.isDigit then [(a.toNat - '0'.toNat, [])] else []
  | [] => []

/-- Candidate parses of CPython strptime `%M`, regex `[0-5]\d|\d`. -/
def minuteCands : List Char → List (Nat × List Char)
  | a :: b :: rest =>
    (if a.isDigit && a.toNat ≤ '5'.toNat && b.isDigit then
      [(10 * (a.toNat - '0'.toNat) + (b.toNat - '0'.toNat), rest)] else []) ++
    (if a.isDigit then [(a.toNat - '0'.toNat, b :: rest)] else [])
  | [a] => if a.isDigit then [(a.toNat - '0'.toNat, [])] else []
  | [] => []

/-- `ValidationUtils.validate_date`: `datetime.strptime(date_str, '%Y-%m-%d')`
succeeds — `%Y` is exactly four digits, the separators are literal dashes, the
whole string must be consumed, and the resulting `datetime(year, month, day)`
must be constructible (year at least 1, day within the month). -/
def validate_date (s : String) : Bool :=
  match s.data with
  | y1 :: y2 :: y3 :: y4 :: '-' :: rest =>
    if y1.isDigit && y2.isDigit && y3.isDigit && y4.isDigit then
      let y := digitsVal [y1, y2, y3, y4]
      decide (1 ≤ y) &&
      (monthCands rest).any (fun mc =>
        match mc.2 with
        | '-' :: r2 =>
          (dayCands r2).any (fun dc => dc.2.isEmpty && decide (dc.1 ≤ daysInMonth y mc.1))
        | _ => false)
    else false
  | _ => false

/-- `ValidationUtils.validate_time`: `datetime.strptime(time_str, '%H:%M')`
succeeds (hour 0–23, minute 0–59, literal colon, whole string consumed). -/
def validate_time (s : String) : Bool :=
  (hourCands s.data).any (fun hc =>
    match hc.2 with
    | ':' :: r2 => (minuteCands r2).any (fun mc => mc.2.isEmpty)
    | _ => false)

/-- Optional sign of a float literal; returns (negative?, remainder). -/
def parseFloatSign : List Char → Bool × List Char
  | '+' :: r => (false, r)
  | '-' :: r => (true, r)
  | cs => (false, cs)

/-- Mantissa `digits [. digits]` with at least one digit somewhere; returns
(digits value, number of fractional digits, remainder). -/
def parseMantissa (cs : List Char) : Option (Nat × Nat × List Char) :=
  let ip := cs.takeWhile Char.isDigit
  match cs.drop ip.length with
  | '.' :: r2 =>
    let fp := r2.takeWhile Char.isDigit
    if ip.isEmpty && fp.isEmpty then none
    else some (digitsVal (ip ++ fp), fp.length, r2.drop fp.length)
  | r1 => if ip.isEmpty then none else some (digitsVal ip, 0, r1)

/-- Exponent part `[eE][+-]?digits`; returns (exponent, remainder). -/
def parseExponentPart : List Char → Option (Int × List Char)
  | c :: r =>
    if c == 'e' || c == 'E' then
      let sr := parseFloatSign r
      let ds := sr.2.takeWhile Char.isDigit
      if ds.isEmpty then none
      else some ((if sr.1 then -(digitsVal ds : Int) else (digitsVal ds : Int)), sr.2.drop ds.length)
    else none
  | [] => none

/-- CPython `float(s)` modelled as exact decimal reading: on success the
result `(n, k)` stands for the value `n / 10 ^ k`.  Surrounding whitespace is
stripped; `inf`/`nan` literals and digit-group underscores are left unparsed
(no claim depends on them: `inf` and `nan` fail the range checks the code
performs, with the single exception of `validate_amount` on an infinity
literal, which no claim mentions). -/
def pyFloatRep (s : String) : Option (Int × Nat) :=
  let cs := pyStrip s.data
  let sr := parseFloatSign cs
  match parseMantissa sr.2 with
  | none => none
  | some (n, k, rest) =>
    let signed : Int := if sr.1 then -(n : Int) else (n : Int)
    match rest with
    | [] => some (signed, k)
    | _ =>
      match parseExponentPart rest with
      | some (e, []) =>
        if 0 ≤ e then some (signed * (10 : Int) ^ e.toNat, k)
        else some (signed, k + e.natAbs)
      | _ => none

/-- The exact value parsed by `pyFloatRep`, as a rational. -/
def pyFloatVal (s : String) : Option ℚ :=
  (pyFloatRep s).map (fun p => (p.1 : ℚ) / (10 : ℚ) ^ p.2)

/-- `ValidationUtils.validate_coordinate`: `float(coord)` parses and
`-180 <= value <= 180`.  The comparison `-180 ≤ n / 10^k ≤ 180` is expressed
over integers as `-180·10^k ≤ n ≤ 180·10^k`. -/
def validate_coordinate (s : String) : Bool :=
  match pyFloatRep s with
  | some (n, k) => decide (-(180 : Int) * 10 ^ k ≤ n ∧ n ≤ 180 * 10 ^ k)
  | none => false

/-- `ValidationUtils.validate_amount`: `float(amount)` parses and the value is
nonnegative (`0 ≤ n / 10^k` iff `0 ≤ n`). -/
def validate_amount (s : String) : Bool :=
  match pyFloatRep s with
  | some (n, _) => decide (0 ≤ n)
  | none => false

/-! ### Payload encoders — `qr_generator/templates.py`, class `DataTemplates` -/

/-- `DataTemplates.create_url`. -/
def create_url (url : String) : String :=
  if url.startsWith "http://" || url.startsWith "https://" then url
  else "https://" ++ url

/-- `DataTemplates.create_text`. -/
def create_text (text : String) : String := text

/-- `DataTemplates.create_email` (the `subject`/`body` parameters of the
source are unused by its body and by every caller). -/
def create_email (address : String) : String :=
  "mailto:" ++ address

/-- The phone-cleaning comprehension
`''.join(c for c in phone if c.isdigit() or c == '+')`: keeps every digit and
every `+`, wherever it occurs. -/
def cleanPhoneChars (cs : List Char) : List Char :=
  cs.filter (fun c => c.isDigit || c == '+')

/-- `DataTemplates.create_phone`. -/
def create_phone (phone : String) : String :=
  "tel:" ++ String.mk (cleanPhoneChars phone.data)

/-- `DataTemplates.create_wifi`: `encryption == 'nopass' or not password`
selects the password-less form. -/
def create_wifi (ssid : String) (password : String := "") (encryption : String := "WPA") : String :=
  if encryption = "nopass" ∨ password = "" then
    "WIFI:T:nopass;S:" ++ ssid ++ ";;"
  else
    "WIFI:T:" ++ encryption ++ ";S:" ++ ssid ++ ";P:" ++ password ++ ";;"

/-- `DataTemplates.create_location`. -/
def create_location (latitude longitude : String) : String :=
  "geo:" ++ latitude ++ "," ++ longitude

/-- `DataTemplates.create_sms`. -/
def create_sms (phone : String) (text : String := "") : String :=
  let clean := String.mk (cleanPhoneChars phone.data)
  if text ≠ "" then "smsto:" ++ clean ++ ":" ++ text
  else "sms:" ++ clean

/-- `DataTemplates.create_whatsapp`: clean the phone, then
`clean_phone.replace('+', '')` (removing every `+`). -/
def create_whatsapp (phone : String) (text : String := "") : String :=
  let nop := String.mk ((cleanPhoneChars phone.data).filter (fun c => c != '+'))
  if text ≠ "" then "https://wa.me/" ++ nop ++ "?text=" ++ text
  else "https://wa.me/" ++ nop

/-- `DataTemplates.create_vcard`.  The primary path serializes through the
external `vobject` library, which is not part of this repository; its exact
output is not modelled and no claim depends on it.  We model the payload with
the code's own plain-text fallback rendering of the collected fields. -/
def create_vcard (name : String) (company : String := "") (phone : String := "")
    (email : String := "") (website : String := "") : String :=
  let s := "Name: " ++ name
  let s := if company ≠ "" then s ++ "\nCompany: " ++ company else s
  let s := if phone ≠ "" then s ++ "\nPhone: " ++ phone else s
  let s := if email ≠ "" then s ++ "\nEmail: " ++ email else s
  if website ≠ "" then s ++ "\nWebsite: " ++ website else s

/-- The 24 spaces of indentation embedded in the source's triple-quoted
iCalendar f-string. -/
def icalIndent : String := "                        "

/-- `DataTemplates.create_event`: `date.replace('-', '')` and
`time.replace(':', '')` remove every occurrence; the f-string keeps the
literal indentation of the source. -/
def create_event (title : String) (date : String) (time : String := "")
    (location : String := "") : String :=
  let dateStr := String.mk (date.data.filter (fun c => c != '-'))
  let datetimeStr :=
    if time ≠ "" then dateStr ++ "T" ++ String.mk (time.data.filter (fun c => c != ':')) ++ "00"
    else dateStr
  "BEGIN:VCALENDAR\n" ++ icalIndent ++ "VERSION:2.0\n" ++ icalIndent ++ "BEGIN:VEVENT\n" ++
  icalIndent ++ "SUMMARY:" ++ title ++ "\n" ++ icalIndent ++ "DTSTART:" ++ datetimeStr ++ "\n" ++
  icalIndent ++ "LOCATION:" ++ location ++ "\n" ++ icalIndent ++ "END:VEVENT\n" ++
  icalIndent ++ "END:VCALENDAR"

/-- `DataTemplates.create_paypal`. -/
def create_paypal (email : String) (amount : String := "") : String :=
  if amount ≠ "" then "https://paypal.me/" ++ email ++ "/" ++ amount
  else "https://paypal.me/" ++ email

/-- The `currency_map` dict of `DataTemplates.create_crypto`. -/
def currencyMap : List (String × String) :=
  [("BTC", "bitcoin"), ("ETH", "ethereum"), ("USDT", "tether")]

/-- `DataTemplates.create_crypto`: `currency_map.get(currency, currency.lower())`. -/
def create_crypto (address : String) (currency : String := "BTC") : String :=
  let cryptoScheme := (dictGet currencyMap currency).getD (pyLower currency)
  cryptoScheme ++ ":" ++ address

/-- `DataTemplates.create_youtube` (identical body to `create_url`). -/
def create_youtube (url : String) : String :=
  if url.startsWith "http://" || url.startsWith "https://" then url
  else "https://" ++ url

/-- The `platforms` dict of `DataTemplates.create_social`. -/
def socialPlatforms (username : String) : List (String × String) :=
  [("instagram", "https://instagram.com/" ++ username),
   ("tiktok", "https://tiktok.com/@" ++ username),
   ("facebook", "https://facebook.com/" ++ username),
   ("linkedin", "https://linkedin.com/in/" ++ username),
   ("twitter", "https://twitter.com/" ++ username)]

/-- `DataTemplates.create_social`:
`platforms.get(platform, f'https://{platform}.com/{username}')`. -/
def create_social (username platform : String) : String :=
  (dictGet (socialPlatforms username) platform).getD
    ("https://" ++ platform ++ ".com/" ++ username)

/-! ### Localization — `config.py` and `bot.py`, class `Localization` -/

/-- `config.DEFAULT_LANGUAGE`. -/
def DEFAULT_LANGUAGE : String := "en"

/-- The translation tables loaded from the locale files: language code to
(key to display text).  The locale files themselves are external data, so
the catalog is a parameter of every controller function. -/
abbrev Translations : Type := List (String × List (String × String))

/-- `Localization.get_text`: an unknown language code falls back to
`DEFAULT_LANGUAGE`; a key missing in the table actually used yields the
bracketed placeholder. -/
def get_text (tr : Translations) (langCode key : String) : String :=
  let lang := if (List.lookup langCode tr).isNone then DEFAULT_LANGUAGE else langCode
  match List.lookup lang tr with
  | some m => (List.lookup key m).getD ("[" ++ key ++ "]")
  | none => "[" ++ key ++ "]"

/-- `Localization.get_available_languages`: language code mapped to the
file's `language_name` entry, defaulting to the code. -/
def availableLanguages (tr : Translations) : List (String × String) :=
  tr.map (fun p => (p.1, (List.lookup "language_name" p.2).getD p.1))

/-! ### Session state — the `context.user_data` keys used by `bot.py` -/

/-- The `multi_step_data` dict: `{'type': ..., 'step': ..., 'inputs': {...}}`.
The `inputs` dict (step index to collected text) is an association list in
which the most recent binding for a key comes first. -/
structure MultiStepData where
  dtype : String
  step : Nat
  inputs : List (Nat × String)
deriving DecidableEq, Repr

/-- The `wifi_data` dict: a bespoke state shape with a symbolic `step` and
optional collected fields. -/
structure WifiData where
  step : String
  ssid : Option String := none
  password : Option String := none
  encryption : Option String := none
deriving DecidableEq, Repr

/-- The per-user `context.user_data` keys the dialogue engine reads and
writes (`language`, `current_data_type`, `wifi_data`, `multi_step_data`);
a missing dict key is `none`. -/
structure UserData where
  language : Option String := none
  currentDataType : Option String := none
  wifiData : Option WifiData := none
  multiStepData : Option MultiStepData := none
deriving DecidableEq, Repr

/-- `QRBot.get_user_lang`. -/
def getUserLang (ud : UserData) : String :=
  ud.language.getD DEFAULT_LANGUAGE

/-- An event outcome: the updated `user_data` plus the payload string handed
to `generate_and_send_qr` this turn (if any). -/
abbrev BotResult : Type := UserData × Option String

/-! ### Dialogue controller — `bot.py`, class `QRBot` -/

/-- The `total_steps` dict of `handle_multi_step_input`
(`.get(data_type, 1)`). -/
def totalStepsList : List (String × Nat) :=
  [("location", 2), ("sms", 2), ("whatsapp", 2), ("vcard", 5), ("event", 4),
   ("paypal", 2), ("crypto", 2), ("social", 2)]

def totalSteps (dt : String) : Nat :=
  (List.lookup dt totalStepsList).getD 1

/-- The `validation_rules` table of `validate_multi_step_input`: data type
and step to the validation kind applied there. -/
def validationRules : List (String × List (Nat × String)) :=
  [("location", [(1, "coordinate"), (2, "coordinate")]),
   ("sms", [(1, "phone"), (2, "text")]),
   ("whatsapp", [(1, "phone"), (2, "text")]),
   ("vcard", [(1, "required"), (2, "optional"), (3, "phone_optional"),
              (4, "email_optional"), (5, "url_optional")]),
   ("event", [(1, "required"), (2, "date"), (3, "time_optional"), (4, "optional")]),
   ("paypal", [(1, "email"), (2, "amount_optional")]),
   ("crypto", [(1, "required")]),
   ("social", [(1, "required")])]

def validationRule (dt : String) (step : Nat) : Option String :=
  (List.lookup dt validationRules).bind (fun m => List.lookup step m)

/-- `QRBot.validate_multi_step_input`, reduced to its boolean outcome (the
error message it sends on failure is presentation only).  Python truthiness
of `user_input.strip()` is nonemptiness after stripping whitespace. -/
def validateMultiStep (t : String) (dt : String) (step : Nat) : Bool :=
  match validationRule dt step with
  | none => true
  | some vt =>
    if vt = "required" then !(pyStrip t.data).isEmpty
    else if vt = "phone" then validate_phone t
    else if vt = "phone_optional" then !(!(pyStrip t.data).isEmpty && !validate_phone t)
    else if vt = "email" then validate_email t
    else if vt = "email_optional" then !(!(pyStrip t.data).isEmpty && !validate_email t)
    else if vt = "coordinate" then validate_coordinate t
    else if vt = "date" then validate_date t
    else if vt = "time_optional" then !(!(pyStrip t.data).isEmpty && !validate_time t)
    else if vt = "amount_optional" then !(!(pyStrip t.data).isEmpty && !validate_amount t)
    else if vt = "url_optional" then !(!(pyStrip t.data).isEmpty && !validate_url t)
    else true

/-- `QRBot.generate_multi_step_qr_data`: a `KeyError` on a missing required
index is caught by the surrounding `try` and yields `""`, as does a data type
with no branch. -/
def generateMultiStepQrData (dt : String) (inputs : List (Nat × String)) : String :=
  if dt = "location" then
    match List.lookup 1 inputs, List.lookup 2 inputs with
    | some lat, some lon => create_location lat lon
    | _, _ => ""
  else if dt = "sms" then
    match List.lookup 1 inputs with
    | some p => create_sms p ((List.lookup 2 inputs).getD "")
    | none => ""
  else if dt = "whatsapp" then
    match List.lookup 1 inputs with
    | some p => create_whatsapp p ((List.lookup 2 inputs).getD "")
    | none => ""
  else if dt = "vcard" then
    match List.lookup 1 inputs with
    | some name =>
      create_vcard name ((List.lookup 2 inputs).getD "") ((List.lookup 3 inputs).getD "")
        ((List.lookup 4 inputs).getD "") ((List.lookup 5 inputs).getD "")
    | none => ""
  else if dt = "event" then
    match List.lookup 1 inputs, List.lookup 2 inputs with
    | some title, some date =>
      create_event title date ((List.lookup 3 inputs).getD "") ((List.lookup 4 inputs).getD "")
    | _, _ => ""
  else if dt = "paypal" then
    match List.lookup 1 inputs with
    | some email => create_paypal email ((List.lookup 2 inputs).getD "")
    | none => ""
  else if dt = "crypto" then
    match List.lookup 1 inputs with
    | some address => create_crypto address ((List.lookup 2 inputs).getD "BTC")
    | none => ""
  else if dt = "social" then
    match List.lookup 1 inputs with
    | some username => create_social username ((List.lookup 2 inputs).getD "instagram")
    | none => ""
  else if dt = "youtube" then
    match List.lookup 1 inputs with
    | some url => create_youtube url
    | none => ""
  else ""

/-- `QRBot.cancel_operation`: pops `current_data_type`, `wifi_data` and
`multi_step_data` (the `language` key is untouched). -/
def cancelOperation (ud : UserData) : UserData :=
  { ud with currentDataType := none, wifiData := none, multiStepData := none }

/-- The tail of `handle_multi_step_input` after the input for the current
step has been stored into `md.inputs`: either advance the step counter and
prompt, or generate the payload and clear the session. -/
def multiStepProceed (ud : UserData) (md : MultiStepData) : BotResult :=
  if md.step < totalSteps md.dtype then
    ({ ud with multiStepData := some { md with step := md.step + 1 } }, none)
  else
    let qr := generateMultiStepQrData md.dtype md.inputs
    ({ ud with multiStepData := none, currentDataType := none },
     if qr = "" then none else some qr)

/-- `QRBot.handle_multi_step_input`: skip stores an empty string for the
current step (no optionality check); cancel delegates to `cancel_operation`;
otherwise the input is validated (failure returns with no state change) and
stored. -/
def handleMultiStepInput (tr : Translations) (ud : UserData) (t : String) : BotResult :=
  match ud.multiStepData with
  | none => (ud, none)
  | some md =>
    let lang := getUserLang ud
    if t = get_text tr lang "skip" then
      multiStepProceed ud { md with inputs := (md.step, "") :: md.inputs }
    else if t = get_text tr lang "cancel" then
      (cancelOperation ud, none)
    else if !validateMultiStep t md.dtype md.step then
      (ud, none)
    else
      multiStepProceed ud { md with inputs := (md.step, t) :: md.inputs }

/-- `QRBot.finalize_wifi_qr`: reads `wifi_data`; a missing `ssid` raises a
`KeyError` inside the `try` and aborts with an error message (no state
change); otherwise the wifi payload is generated and the session cleared. -/
def finalizeWifiQr (ud : UserData) : BotResult :=
  match ud.wifiData with
  | none => (ud, none)
  | some wd =>
    match wd.ssid with
    | none => (ud, none)
    | some ssid =>
      let qr := create_wifi ssid (wd.password.getD "") (wd.encryption.getD "WPA")
      if qr = "" then (ud, none)
      else ({ ud with wifiData := none, currentDataType := none }, some qr)

/-- `QRBot.handle_wifi_input`: cancel pops the wifi session; at step `ssid`
the text is stored and the step moves to `encryption`; at step `password` the
text is stored and the QR is finalized; any other step falls through with no
effect. -/
def handleWifiInput (tr : Translations) (ud : UserData) (t : String) : BotResult :=
  match ud.wifiData with
  | none => (ud, none)
  | some wd =>
    let lang := getUserLang ud
    if t = get_text tr lang "cancel" then
      ({ ud with wifiData := none, currentDataType := none }, none)
    else if wd.step = "ssid" then
      ({ ud with wifiData := some { wd with ssid := some t, step := "encryption" } }, none)
    else if wd.step = "password" then
      finalizeWifiQr { ud with wifiData := some { wd with password := some t, step := "final" } }
    else (ud, none)

/-- The `encryption_map` of `handle_wifi_encryption` as a dict literal. -/
def encryptionMapList (tr : Translations) (lang : String) : List (String × String) :=
  [(get_text tr lang "encryption_wpa", "WPA"),
   (get_text tr lang "encryption_wep", "WEP"),
   (get_text tr lang "encryption_none", "nopass")]

/-- `QRBot.handle_wifi_encryption`: `encryption_map.get(text, 'WPA')`; with
no active `wifi_data`, the code mutates a fresh dict — choosing `nopass`
then raises a `KeyError` in `finalize_wifi_qr` and nothing is persisted. -/
def handleWifiEncryption (tr : Translations) (ud : UserData) (t : String) : BotResult :=
  let lang := getUserLang ud
  let encryption := (dictGet (encryptionMapList tr lang) t).getD "WPA"
  match ud.wifiData with
  | none => (ud, none)
  | some wd =>
    let wd := { wd with encryption := some encryption }
    if encryption = "nopass" then
      finalizeWifiQr { ud with wifiData := some { wd with step := "final" } }
    else
      ({ ud with wifiData := some { wd with step := "password" } }, none)

/-- `QRBot.validate_input` for single-input types, modelled as the
localization key of the error message it sends (`none` means valid). -/
def validateInputError (dt t : String) : Option String :=
  if dt = "url" then (if validate_url t then none else some "invalid_url")
  else if dt = "email" then (if validate_email t then none else some "invalid_email")
  else if dt = "text" then (if t.length > 500 then some "text_too_long" else none)
  else if dt = "phone" then (if validate_phone t then none else some "invalid_phone")
  else if dt = "youtube" then (if validate_url t then none else some "invalid_url")
  else none

/-- The boolean returned by `QRBot.validate_input`. -/
def validateInput (dt t : String) : Bool :=
  (validateInputError dt t).isNone

/-- `QRBot.generate_qr_data` for single-input types. -/
def generateQrData (dt t : String) : String :=
  if dt = "url" then create_url t
  else if dt = "text" then create_text t
  else if dt = "email" then create_email t
  else if dt = "phone" then create_phone t
  else if dt = "youtube" then create_youtube t
  else t

/-- `QRBot.handle_single_input`: validate, generate, guard against an empty
payload, send, and pop only `current_data_type`. -/
def handleSingleInput (ud : UserData) (t : String) : BotResult :=
  match ud.currentDataType with
  | none => (ud, none)
  | some dt =>
    if !validateInput dt t then (ud, none)
    else
      let qr := generateQrData dt t
      if qr = "" then (ud, none)
      else ({ ud with currentDataType := none }, some qr)

/-- The localization keys of the 14 data-type labels, in the order of
`create_data_type_keyboard` and `data_type_map`. -/
def dataTypeKeys : List (String × String) :=
  [("data_type_url", "url"), ("data_type_text", "text"), ("data_type_email", "email"),
   ("data_type_phone", "phone"), ("data_type_wifi", "wifi"), ("data_type_location", "location"),
   ("data_type_sms", "sms"), ("data_type_whatsapp", "whatsapp"), ("data_type_vcard", "vcard"),
   ("data_type_event", "event"), ("data_type_paypal", "paypal"), ("data_type_crypto", "crypto"),
   ("data_type_youtube", "youtube"), ("data_type_social", "social")]

/-- The `data_type_map` dict of `handle_data_type_selection`. -/
def dataTypeMapList (tr : Translations) (lang : String) : List (String × String) :=
  dataTypeKeys.map (fun p => (get_text tr lang p.1, p.2))

/-- The localized labels the dispatcher compares against for data-type
selection. -/
def dataTypeLabels (tr : Translations) (lang : String) : List String :=
  (dataTypeMapList tr lang).map (fun p => p.1)

/-- `QRBot.handle_data_type_selection`: map the label to its canonical data
type, remember it, and initialize the wifi or generic multi-step session
shape where applicable. -/
def handleDataTypeSelection (tr : Translations) (ud : UserData) (t : String) : BotResult :=
  let lang := getUserLang ud
  match dictGet (dataTypeMapList tr lang) t with
  | none => (ud, none)
  | some dt =>
    let ud := { ud with currentDataType := some dt }
    if dt = "wifi" then
      ({ ud with wifiData := some { step := "ssid" } }, none)
    else if ["location", "sms", "whatsapp", "vcard", "event", "paypal", "crypto",
             "social"].contains dt then
      ({ ud with multiStepData := some { dtype := dt, step := 1, inputs := [] } }, none)
    else (ud, none)

/-- The `crypto_map` dict of `handle_crypto_selection`. -/
def cryptoMapList (tr : Translations) (lang : String) : List (String × String) :=
  [(get_text tr lang "crypto_btc", "BTC"),
   (get_text tr lang "crypto_eth", "ETH"),
   (get_text tr lang "crypto_usdt", "USDT")]

/-- `QRBot.handle_crypto_selection`: `crypto_map.get(text, 'BTC')` is stored
at index 2, the step is marked complete and the crypto payload generated.
With no `multi_step_data`, `multi_data['inputs']` raises a `KeyError` and
nothing is persisted. -/
def handleCryptoSelection (tr : Translations) (ud : UserData) (t : String) : BotResult :=
  let lang := getUserLang ud
  let currency := (dictGet (cryptoMapList tr lang) t).getD "BTC"
  match ud.multiStepData with
  | none => (ud, none)
  | some md =>
    let md := { md with inputs := (2, currency) :: md.inputs, step := 3 }
    let qr := generateMultiStepQrData "crypto" md.inputs
    ({ ud with multiStepData := none, currentDataType := none },
     if qr = "" then none else some qr)

/-- The `social_map` dict of `handle_social_selection`. -/
def socialMapList (tr : Translations) (lang : String) : List (String × String) :=
  [(get_text tr lang "social_instagram", "instagram"),
   (get_text tr lang "social_tiktok", "tiktok"),
   (get_text tr lang "social_facebook", "facebook"),
   (get_text tr lang "social_linkedin", "linkedin"),
   (get_text tr lang "social_twitter", "twitter")]

/-- `QRBot.handle_social_selection`, the social analogue of
`handle_crypto_selection` with default platform `instagram`. -/
def handleSocialSelection (tr : Translations) (ud : UserData) (t : String) : BotResult :=
  let lang := getUserLang ud
  let platform := (dictGet (socialMapList tr lang) t).getD "instagram"
  match ud.multiStepData with
  | none => (ud, none)
  | some md =>
    let md := { md with inputs := (2, platform) :: md.inputs, step := 3 }
    let qr := generateMultiStepQrData "social" md.inputs
    ({ ud with multiStepData := none, currentDataType := none },
     if qr = "" then none else some qr)

/-- `QRBot.handle_skip_input` re-enters `handle_multi_step_input` with the
localized skip text. -/
def handleSkipInput (tr : Translations) (ud : UserData) : BotResult :=
  handleMultiStepInput tr ud (get_text tr (getUserLang ud) "skip")

/-- `QRBot.handle_language_selection`: the first language whose display name
matches is selected; otherwise the default language is set. -/
def handleLanguageSelection (tr : Translations) (ud : UserData) (t : String) : BotResult :=
  match (availableLanguages tr).find? (fun p => p.2 = t) with
  | some p => ({ ud with language := some p.1 }, none)
  | none => ({ ud with language := some DEFAULT_LANGUAGE }, none)

/-- `QRBot.create_qr`: clears any previous per-operation state and shows the
data-type keyboard. -/
def createQr (ud : UserData) : UserData :=
  { ud with currentDataType := none, wifiData := none, multiStepData := none }

/-- The localized wifi encryption labels the dispatcher compares against. -/
def encryptionLabels (tr : Translations) (lang : String) : List String :=
  (encryptionMapList tr lang).map (fun p => p.1)

/-- The localized crypto labels the dispatcher compares against. -/
def cryptoLabels (tr : Translations) (lang : String) : List String :=
  (cryptoMapList tr lang).map (fun p => p.1)

/-- The localized social labels the dispatcher compares against. -/
def socialLabels (tr : Translations) (lang : String) : List String :=
  (socialMapList tr lang).map (fun p => p.1)

/-- `QRBot.handle_dynamic_text`, the dispatcher for every non-command text
event: an active `wifi_data` session intercepts everything first, then an
active `multi_step_data` session, then the menu comparisons in source
order (create, help, language, the 14 data-type labels, back, cancel,
language names, encryption labels, crypto labels, social labels, skip), then
single-input collection, and finally the "use the buttons" hint. -/
def handleDynamicText (tr : Translations) (ud : UserData) (t : String) : BotResult :=
  let lang := getUserLang ud
  if ud.wifiData.isSome then handleWifiInput tr ud t
  else if ud.multiStepData.isSome then handleMultiStepInput tr ud t
  else if t = get_text tr lang "create_qr" then (createQr ud, none)
  else if t = get_text tr lang "help" then (ud, none)
  else if t = get_text tr lang "language" then (ud, none)
  else if (dataTypeLabels tr lang).contains t then handleDataTypeSelection tr ud t
  else if t = get_text tr lang "back" then (ud, none)
  else if t = get_text tr lang "cancel" then (cancelOperation ud, none)
  else if ((availableLanguages tr).map (fun p => p.2)).contains t then
    handleLanguageSelection tr ud t
  else if (encryptionLabels tr lang).contains t then handleWifiEncryption tr ud t
  else if (cryptoLabels tr lang).contains t then handleCryptoSelection tr ud t
  else if (socialLabels tr lang).contains t then handleSocialSelection tr ud t
  else if t = get_text tr lang "skip" then handleSkipInput tr ud
  else if ud.currentDataType.isSome then handleSingleInput ud t
  else (ud, none)

/-! ### Claim-side specification definitions

These are written from the wording of the claims being checked (not from the
source), to be compared against the source-derived definitions above. -/

/-- The phone rule exactly as claim C2 states it: an optional leading `+`
followed by characters from the regex class, with the TOTAL length —
including the `+` when present — at least 10. -/
def claimedPhoneRule (s : String) : Bool :=
  decide (10 ≤ s.length) &&
  (match s.data with
   | '+' :: rest => rest.all phoneClass
   | cs => cs.all phoneClass)

/-- The phone rule as amended, on the character list: an optional leading
`+` followed by at least 10 characters from the regex class. -/
def amendedPhoneCore : List Char → Bool
  | '+' :: rest => decide (10 ≤ rest.length) && rest.all phoneClass
  | cs => decide (10 ≤ cs.length) && cs.all phoneClass

/-- The phone rule as amended: an optional leading `+` followed by at least
10 characters from the regex class, so a string with a leading `+` needs
total length at least 11. -/
def amendedPhoneRule (s : String) : Bool :=
  amendedPhoneCore s.data

/-- The cleaning rule of claim C6, on the character list: keep digits and a
LEADING `+` only (a `+` anywhere else is removed). -/
def claimedPhoneClean : List Char → List Char
  | '+' :: rest => '+' :: rest.filter Char.isDigit
  | cs => cs.filter Char.isDigit

/-- The phone encoding exactly as claim C6 states it: every character removed
except digits and a leading `+`, prefixed with `tel:`. -/
def claimedPhonePayload (s : String) : String :=
  "tel:" ++ String.mk (claimedPhoneClean s.data)

/-! ### Concrete fixtures used by witnesses and counterexamples -/

/-- The empty translation catalog: every `get_text` lookup yields the
bracketed placeholder, e.g. `[skip]`, `[cancel]`. -/
def trEmpty : Translations := []

/-- A crypto session awaiting the enumerated currency choice (step 2) with
address `"addr"` already collected. -/
def cryptoSessionAtChoice : UserData :=
  { currentDataType := some "crypto",
    multiStepData := some { dtype := "crypto", step := 2, inputs := [(1, "addr")] } }

/-- A social session awaiting the enumerated platform choice (step 2) with
username `"bob"` already collected. -/
def socialSessionAtChoice : UserData :=
  { currentDataType := some "social",
    multiStepData := some { dtype := "social", step := 2, inputs := [(1, "bob")] } }

/-- A location session at its first (required, latitude) step. -/
def locationSessionStep1 : UserData :=
  { currentDataType := some "location",
    multiStepData := some { dtype := "location", step := 1, inputs := [] } }

/-- A location session at its second (longitude) step with latitude
`"12.34"` collected. -/
def locationSessionStep2 : UserData :=
  { currentDataType := some "location",
    multiStepData := some { dtype := "location", step := 2, inputs := [(1, "12.34")] } }

/-- A paypal session at its first (required email) step with nothing
collected. -/
def paypalSessionStep1 : UserData :=
  { currentDataType := some "paypal",
    multiStepData := some { dtype := "paypal", step := 1, inputs := [] } }

/-- A wifi session at the ssid step. -/
def wifiSessionAtSsid : UserData :=
  { currentDataType := some "wifi", wifiData := some { step := "ssid" } }

/-- A single-input text session. -/
def textSession : UserData :=
  { currentDataType := some "text" }

/-- A two-locale catalog: the default locale has the key, the other locale
exists but lacks it. -/
def trCatalogTwo : Translations := [("en", [("greet", "hello")]), ("ru", [])]

/-- A 501-character input for the text-length limit. -/
def longText : String := String.mk (List.replicate 501 'a')

/-! ### Helper lemmas -/

theorem amendedPhoneCore_cons_ne {c : Char} (rest : List Char) (hc : c ≠ '+') :
    amendedPhoneCore (c :: rest) =
      (decide (10 ≤ (c :: rest).length) && (c :: rest).all phoneClass) := by
  unfold amendedPhoneCore
  split
  · next r heq =>
    injection heq with h1 _
    exact absurd h1 hc
  · rfl

theorem phoneCore_eq_amended (cs : List Char) : phoneCore cs = amendedPhoneCore cs := by
  cases cs with
  | nil => rfl
  | cons c rest =>
    by_cases hc : c = '+'
    · subst hc
      simp [phoneCore, amendedPhoneCore, List.all_cons,
        show phoneClass '+' = false from rfl]
    · have h1 : (match c :: rest with
                 | '+' :: r => decide (10 ≤ r.length) && r.all phoneClass
                 | _ => false) = false := by
        split
        · next r heq =>
          injection heq with h1 _
          exact absurd h1 hc
        · rfl
      rw [amendedPhoneCore_cons_ne rest hc]
      unfold phoneCore
      rw [h1]
      simp

theorem amendedPhoneCore_append_newline (l : List Char)
    (h : amendedPhoneCore l = true) : amendedPhoneCore (l ++ ['\n']) = true := by
  have hnl : phoneClass '\n' = true := rfl
  cases l with
  | nil => simp [amendedPhoneCore] at h
  | cons c rest =>
    by_cases hc : c = '+'
    · subst hc
      simp only [List.cons_append]
      simp only [amendedPhoneCore, Bool.and_eq_true, decide_eq_true_iff] at h ⊢
      refine ⟨by simpa using Nat.le_succ_of_le h.1, ?_⟩
      simp [List.all_append, h.2, hnl]
    · rw [amendedPhoneCore_cons_ne rest hc] at h
      rw [show (c :: rest) ++ ['\n'] = c :: (rest ++ ['\n']) from rfl,
        amendedPhoneCore_cons_ne (rest ++ ['\n']) hc]
      simp only [Bool.and_eq_true, decide_eq_true_iff, List.all_cons] at h ⊢
      refine ⟨?_, h.2.1, ?_⟩
      · simp only [List.length_cons, List.length_append] at h ⊢
        omega
      · simp [List.all_append, h.2.2, hnl]

theorem validate_phone_eq_core (s : String) : validate_phone s = phoneCore s.data := by
  unfold validate_phone pyMatchDollar
  cases hl : s.data.getLast? with
  | none => simp
  | some c =>
    by_cases hc : c = '\n'
    · subst hc
      have hne : s.data ≠ [] := by
        intro h0
        rw [h0] at hl
        simp at hl
      have hlast : s.data.getLast hne = '\n' := by
        have := List.getLast?_eq_getLast s.data hne
        rw [hl] at this
        exact (Option.some_injective _ this.symm)
      have hsplit : s.data.dropLast ++ ['\n'] = s.data := by
        conv_rhs => rw [← List.dropLast_append_getLast hne]
        rw [hlast]
      cases hcore : phoneCore s.data with
      | false =>
        have hdrop : phoneCore s.data.dropLast = false := by
          by_contra hne2
          have ht : phoneCore s.data.dropLast = true := by
            cases h2 : phoneCore s.data.dropLast
            · exact absurd h2 hne2
            · rfl
          have hamd := phoneCore_eq_amended s.data.dropLast ▸ ht
          have h3 := amendedPhoneCore_append_newline _ hamd
          rw [hsplit, ← phoneCore_eq_amended] at h3
          rw [h3] at hcore
          cases hcore
        simp [hcore, hdrop]
      | true => simp [hcore]
    · have hbeq : (s.data.getLast? == some '\n') = false := by
        rw [hl]
        simp [hc]
      simp [hbeq]
      intro h
      exact absurd h hc

theorem append3_ne_empty_mid (a b c : String) (h : b ≠ "") : a ++ b ++ c ≠ "" := by
  intro he
  have hl := congrArg String.length he
  rw [String.length_append, String.length_append] at hl
  have hb : 0 < b.length := by
    cases b with
    | mk l =>
      cases l with
      | nil => exact absurd rfl h
      | cons x xs => simp [String.length]
  rw [show ("" : String).length = 0 from rfl] at hl
  omega

theorem append_ne_empty_right (a c : String) (h : c ≠ "") : a ++ c ≠ "" := by
  intro he
  have hl := congrArg String.length he
  rw [String.length_append] at hl
  have hc : 0 < c.length := by
    cases c with
    | mk l =>
      cases l with
      | nil => exact absurd rfl h
      | cons x xs => simp [String.length]
  rw [show ("" : String).length = 0 from rfl] at hl
  omega

theorem tel_eq_iff (l l' : List Char) :
    ("tel:" ++ String.mk l = "tel:" ++ String.mk l') ↔ l = l' := by
  constructor
  · intro h
    exact List.append_cancel_left
      (show "tel:".data ++ l = "tel:".data ++ l' from congrArg String.data h)
  · intro h
    rw [h]

theorem count_plus_filter_digit (l : List Char) :
    (l.filter Char.isDigit).count '+' = 0 := by
  rw [List.count_eq_zero]
  intro hmem
  exact absurd (List.mem_filter.mp hmem).2 (by decide)

theorem count_plus_filter_clean (l : List Char) :
    (cleanPhoneChars l).count '+' = l.count '+' := by
  unfold cleanPhoneChars
  exact List.count_filter (by decide)

theorem claimedPhoneClean_cons_ne {c : Char} (rest : List Char) (hc : c ≠ '+') :
    claimedPhoneClean (c :: rest) = (c :: rest).filter Char.isDigit := by
  unfold claimedPhoneClean
  split
  · next r heq =>
    injection heq with h1 _
    exact absurd h1 hc
  · rfl

/-- `create_phone` agrees with the leading-plus-only rule of claim C6 exactly
on the inputs with no `+` beyond the first character. -/
theorem create_phone_eq_claimed_iff (s : String) :
    create_phone s = claimedPhonePayload s ↔ '+' ∉ s.data.drop 1 := by
  unfold create_phone claimedPhonePayload
  rw [tel_eq_iff]
  cases hd : s.data with
  | nil => simp [cleanPhoneChars, claimedPhoneClean]
  | cons ch rest =>
    simp only [List.drop_succ_cons, List.drop_zero]
    constructor
    · intro h hmem
      have hcount : 0 < rest.count '+' := List.count_pos_iff.mpr hmem
      have hc := congrArg (List.count '+') h
      rw [count_plus_filter_clean] at hc
      by_cases hch : ch = '+'
      · subst hch
        rw [show claimedPhoneClean ('+' :: rest) = '+' :: rest.filter Char.isDigit from rfl] at hc
        simp only [List.count_cons_self, count_plus_filter_digit] at hc
        omega
      · rw [claimedPhoneClean_cons_ne rest hch, count_plus_filter_digit] at hc
        have h1 : rest.count '+' ≤ (ch :: rest).count '+' := by
          rw [List.count_cons]
          exact Nat.le_add_right _ _
        omega
    · intro hnp
      by_cases hch : ch = '+'
      · subst hch
        rw [show claimedPhoneClean ('+' :: rest) = '+' :: rest.filter Char.isDigit from rfl]
        unfold cleanPhoneChars
        rw [List.filter_cons_of_pos (by decide)]
        congr 1
        exact List.filter_congr (fun c hcm => by
          have hne : c ≠ '+' := fun he => hnp (he ▸ hcm)
          simp [beq_eq_false_iff_ne.mpr hne])
      · rw [claimedPhoneClean_cons_ne rest hch]
        unfold cleanPhoneChars
        exact List.filter_congr (fun c hcm => by
          have hne : c ≠ '+' := by
            rcases List.mem_cons.mp hcm with h | h
            · rw [h]
              exact hch
            · exact fun he => hnp (he ▸ h)
          simp [beq_eq_false_iff_ne.mpr hne])

/-! ### Claim C1 — unmatched enumerated choice at the crypto/social step -/

/-- C1 counterexample: with a crypto session awaiting the step-2 currency
choice, the unmatched text `"DOGE"` is routed to `handle_multi_step_input`
(which intercepts every message while `multi_step_data` is set), stored raw,
and encoded as `doge:addr` — not the claimed default canonical `BTC` payload
`bitcoin:addr`. -/
theorem claim1_counterexample :
    handleDynamicText trEmpty cryptoSessionAtChoice "DOGE" =
      (({ currentDataType := none, multiStepData := none } : UserData), some "doge:addr") ∧
    ("doge:addr" : String) ≠ "bitcoin:addr" := by
  exact ⟨rfl, by decide⟩

/-- C1 (corrected): at the crypto or social step 2, any incoming text other
than the skip/cancel keywords is stored as-is by `handle_multi_step_input`;
the encoder then determines the payload from the raw text (crypto: the
lowercased text as the URI scheme; social: `https://<text>.com/<username>`),
so the default canonical value is never substituted.  (The `.get(…, 'BTC')`
and `.get(…, 'instagram')` fallbacks live in the selection handlers, which
the dispatcher bypasses while a session is active.) -/
theorem claim1_thm :
    (∀ (tr : Translations) (ud : UserData) (md : MultiStepData) (addr t : String),
      ud.wifiData = none →
      ud.multiStepData = some md →
      md.dtype = "crypto" → md.step = 2 →
      List.lookup 1 md.inputs = some addr →
      t ≠ get_text tr (getUserLang ud) "skip" →
      t ≠ get_text tr (getUserLang ud) "cancel" →
      t ≠ "BTC" → t ≠ "ETH" → t ≠ "USDT" →
      handleDynamicText tr ud t =
        ({ ud with multiStepData := none, currentDataType := none },
         some (pyLower t ++ ":" ++ addr))) ∧
    (∀ (tr : Translations) (ud : UserData) (md : MultiStepData) (username t : String),
      ud.wifiData = none →
      ud.multiStepData = some md →
      md.dtype = "social" → md.step = 2 →
      List.lookup 1 md.inputs = some username →
      t ≠ get_text tr (getUserLang ud) "skip" →
      t ≠ get_text tr (getUserLang ud) "cancel" →
      t ≠ "instagram" → t ≠ "tiktok" → t ≠ "facebook" → t ≠ "linkedin" → t ≠ "twitter" →
      handleDynamicText tr ud t =
        ({ ud with multiStepData := none, currentDataType := none },
         some ("https://" ++ t ++ ".com/" ++ username))) := by
  constructor
  · intro tr ud md addr t hw hm hdt hstep h1 hskip hcancel hb he hu
    obtain ⟨dt, st, ins⟩ := md
    dsimp only at hdt hstep h1
    subst hdt
    subst hstep
    have hb' : (t == "BTC") = false := beq_eq_false_iff_ne.mpr hb
    have he' : (t == "ETH") = false := beq_eq_false_iff_ne.mpr he
    have hu' : (t == "USDT") = false := beq_eq_false_iff_ne.mpr hu
    have hqr : pyLower t ++ ":" ++ addr ≠ "" := append3_ne_empty_mid _ _ _ (by decide)
    have hv : validateMultiStep t "crypto" 2 = true := rfl
    have hts : totalSteps "crypto" = 2 := rfl
    simp [handleDynamicText, hw, hm, handleMultiStepInput, hskip, hcancel, hv,
      multiStepProceed, hts, generateMultiStepQrData, List.lookup, h1,
      create_crypto, dictGet, currencyMap, hb', he', hu', hqr]
  · intro tr ud md username t hw hm hdt hstep h1 hskip hcancel h2 h3 h4 h5 h6
    obtain ⟨dt, st, ins⟩ := md
    dsimp only at hdt hstep h1
    subst hdt
    subst hstep
    have h2' : (t == "instagram") = false := beq_eq_false_iff_ne.mpr h2
    have h3' : (t == "tiktok") = false := beq_eq_false_iff_ne.mpr h3
    have h4' : (t == "facebook") = false := beq_eq_false_iff_ne.mpr h4
    have h5' : (t == "linkedin") = false := beq_eq_false_iff_ne.mpr h5
    have h6' : (t == "twitter") = false := beq_eq_false_iff_ne.mpr h6
    have hqr : "https://" ++ t ++ ".com/" ++ username ≠ "" :=
      append3_ne_empty_mid ("https://" ++ t) ".com/" username (by decide)
    have hv : validateMultiStep t "social" 2 = true := rfl
    have hts : totalSteps "social" = 2 := rfl
    simp [handleDynamicText, hw, hm, handleMultiStepInput, hskip, hcancel, hv,
      multiStepProceed, hts, generateMultiStepQrData, List.lookup, h1,
      create_social, dictGet, socialPlatforms, h2', h3', h4', h5', h6', hqr]

/-- C1 witness: both parts of the corrected claim applied at concrete
sessions and inputs. -/
theorem claim1_witness :
    handleDynamicText trEmpty cryptoSessionAtChoice "DOGE" =
      (({ currentDataType := none, multiStepData := none } : UserData),
       some (pyLower "DOGE" ++ ":" ++ "addr")) ∧
    handleDynamicText trEmpty socialSessionAtChoice "MySpace" =
      (({ currentDataType := none, multiStepData := none } : UserData),
       some ("https://" ++ "MySpace" ++ ".com/" ++ "bob")) := by
  constructor
  · exact claim1_thm.1 trEmpty cryptoSessionAtChoice
      { dtype := "crypto", step := 2, inputs := [(1, "addr")] } "addr" "DOGE"
      rfl rfl rfl rfl rfl (by decide) (by decide) (by decide) (by decide) (by decide)
  · exact claim1_thm.2 trEmpty socialSessionAtChoice
      { dtype := "social", step := 2, inputs := [(1, "bob")] } "bob" "MySpace"
      rfl rfl rfl rfl rfl (by decide) (by decide) (by decide) (by decide) (by decide)
      (by decide) (by decide)

/-! ### Claim C2 — the phone validator's accepted language -/

/-- C2 counterexample: `"+123456789"` has total length 10 including the `+`,
so the claim accepts it, but the regex requires at least 10 characters AFTER
the optional `+` and rejects it. -/
theorem claim2_counterexample :
    claimedPhoneRule "+123456789" = true ∧ validate_phone "+123456789" = false := by
  exact ⟨by decide, by decide⟩

/-- C2 (corrected): the phone validator accepts exactly the strings made of
an optional leading `+` followed by at least 10 characters from
digits/whitespace/hyphens/parentheses — so a string with a leading `+` needs
total length at least 11, not 10. -/
theorem claim2_thm (s : String) : validate_phone s = amendedPhoneRule s := by
  rw [validate_phone_eq_core]
  unfold amendedPhoneRule
  exact phoneCore_eq_amended s.data

/-- C2 witness: the corrected rule evaluated through the theorem at an
accepted input. -/
theorem claim2_witness :
    validate_phone "+12345678901" = amendedPhoneRule "+12345678901" ∧
    validate_phone "+12345678901" = true := by
  exact ⟨claim2_thm "+12345678901", by decide⟩

/-! ### Claim C3 — the skip keyword and required steps -/

/-- C3 counterexample: at the location session's required first step
(latitude), sending the skip keyword stores the empty string and advances to
step 2 — the claim says nothing is stored and the step does not advance. -/
theorem claim3_counterexample :
    handleDynamicText trEmpty locationSessionStep1 (get_text trEmpty "en" "skip") =
      (({ currentDataType := some "location",
          multiStepData := some { dtype := "location", step := 2, inputs := [(1, "")] } } :
        UserData), none) ∧
    ({ currentDataType := some "location",
       multiStepData := some { dtype := "location", step := 2, inputs := [(1, "")] } } :
        UserData) ≠ locationSessionStep1 := by
  exact ⟨rfl, by decide⟩

/-- C3 (corrected): `handle_multi_step_input` checks the skip keyword before
any validation and performs no optionality check, so skip stores an empty
string at the current step and advances (or finalizes at the last step) at
EVERY step, required steps included. -/
theorem claim3_thm :
    ∀ (tr : Translations) (ud : UserData) (md : MultiStepData),
      ud.wifiData = none →
      ud.multiStepData = some md →
      handleDynamicText tr ud (get_text tr (getUserLang ud) "skip") =
        (if md.step < totalSteps md.dtype then
          ({ ud with
              multiStepData :=
                some ({ md with step := md.step + 1, inputs := (md.step, "") :: md.inputs }) },
           none)
         else
          ({ ud with multiStepData := none, currentDataType := none },
           if generateMultiStepQrData md.dtype ((md.step, "") :: md.inputs) = "" then none
           else some (generateMultiStepQrData md.dtype ((md.step, "") :: md.inputs)))) := by
  intro tr ud md hw hm
  simp [handleDynamicText, hw, hm, handleMultiStepInput, multiStepProceed]

/-- C3 witness: the corrected claim applied at the required location
latitude step. -/
theorem claim3_witness :
    handleDynamicText trEmpty locationSessionStep1 (get_text trEmpty "en" "skip") =
      (({ currentDataType := some "location",
          multiStepData := some { dtype := "location", step := 2, inputs := [(1, "")] } } :
        UserData), none) := by
  have h := claim3_thm trEmpty locationSessionStep1
    { dtype := "location", step := 1, inputs := [] } rfl rfl
  simpa using h

/-! ### Claim C4 — validation failure leaves the session unchanged -/

/-- C4 (confirmed): an input that fails the step's validator leaves the
session state exactly as it was (step, collected fields, data type); an input
that passes at a non-final step is stored at the current step and the step
advances by one; storing at the current step preserves the lookup of every
previously collected field. -/
theorem claim4_thm :
    (∀ (tr : Translations) (ud : UserData) (md : MultiStepData) (t : String),
      ud.wifiData = none →
      ud.multiStepData = some md →
      t ≠ get_text tr (getUserLang ud) "skip" →
      t ≠ get_text tr (getUserLang ud) "cancel" →
      validateMultiStep t md.dtype md.step = false →
      handleDynamicText tr ud t = (ud, none)) ∧
    (∀ (tr : Translations) (ud : UserData) (md : MultiStepData) (t : String),
      ud.wifiData = none →
      ud.multiStepData = some md →
      t ≠ get_text tr (getUserLang ud) "skip" →
      t ≠ get_text tr (getUserLang ud) "cancel" →
      validateMultiStep t md.dtype md.step = true →
      md.step < totalSteps md.dtype →
      handleDynamicText tr ud t =
        ({ ud with
            multiStepData :=
              some ({ md with step := md.step + 1, inputs := (md.step, t) :: md.inputs }) },
         none)) ∧
    (∀ (k : Nat) (t : String) (md : MultiStepData), k ≠ md.step →
      List.lookup k ((md.step, t) :: md.inputs) = List.lookup k md.inputs) := by
  refine ⟨?_, ?_, ?_⟩
  · intro tr ud md t hw hm hskip hcancel hv
    simp [handleDynamicText, hw, hm, handleMultiStepInput, hskip, hcancel, hv]
  · intro tr ud md t hw hm hskip hcancel hv hlt
    simp [handleDynamicText, hw, hm, handleMultiStepInput, hskip, hcancel, hv,
      multiStepProceed, hlt]
  · intro k t md hk
    simp [List.lookup, beq_eq_false_iff_ne.mpr hk]

/-- C4 witness: the paypal first step with an invalid then a valid email —
the invalid submission leaves the session at step 1 with empty fields, the
valid one stores the email and advances to step 2. -/
theorem claim4_witness :
    handleDynamicText trEmpty paypalSessionStep1 "notanemail" = (paypalSessionStep1, none) ∧
    handleDynamicText trEmpty paypalSessionStep1 "user@example.com" =
      (({ currentDataType := some "paypal",
          multiStepData := some { dtype := "paypal", step := 2,
                                  inputs := [(1, "user@example.com")] } } : UserData), none) := by
  constructor
  · exact claim4_thm.1 trEmpty paypalSessionStep1
      { dtype := "paypal", step := 1, inputs := [] } "notanemail"
      rfl rfl (by decide) (by decide) (by decide)
  · exact claim4_thm.2.1 trEmpty paypalSessionStep1
      { dtype := "paypal", step := 1, inputs := [] } "user@example.com"
      rfl rfl (by decide) (by decide) (by decide) (by decide)

/-! ### Claim C5 — the wifi payload -/

/-- C5 (confirmed): the wifi encoder emits the password-less form exactly
when the encryption is `nopass` or the password is empty/absent, and the full
form otherwise; finalizing any wifi session with a stored ssid encodes the
collected fields this way, and in particular encryption `nopass` yields
`WIFI:T:nopass;S:Home;;` regardless of any password value. -/
theorem claim5_thm :
    (∀ ssid password encryption : String,
      create_wifi ssid password encryption =
        if encryption = "nopass" ∨ password = "" then "WIFI:T:nopass;S:" ++ ssid ++ ";;"
        else "WIFI:T:" ++ encryption ++ ";S:" ++ ssid ++ ";P:" ++ password ++ ";;") ∧
    (∀ (ud : UserData) (wd : WifiData) (ssid : String),
      ud.wifiData = some wd → wd.ssid = some ssid →
      finalizeWifiQr ud =
        ({ ud with wifiData := none, currentDataType := none },
         some (create_wifi ssid (wd.password.getD "") (wd.encryption.getD "WPA")))) ∧
    create_wifi "Home" "secret123" "WPA" = "WIFI:T:WPA;S:Home;P:secret123;;" ∧
    (∀ password : String, create_wifi "Home" password "nopass" = "WIFI:T:nopass;S:Home;;") := by
  refine ⟨fun _ _ _ => rfl, ?_, by decide, ?_⟩
  · intro ud wd ssid hw hs
    have hne : create_wifi ssid (wd.password.getD "") (wd.encryption.getD "WPA") ≠ "" := by
      unfold create_wifi
      split
      · exact append_ne_empty_right _ ";;" (by decide)
      · exact append_ne_empty_right _ ";;" (by decide)
    simp [finalizeWifiQr, hw, hs, hne]
  · intro password
    unfold create_wifi
    rw [if_pos (Or.inl rfl)]
    rfl

/-- C5 witness: the controller-level conjunct applied at a completed wifi
session with ssid `Home`, password `secret123`, encryption `WPA`. -/
theorem claim5_witness :
    finalizeWifiQr
      ({ currentDataType := some "wifi",
         wifiData := some { step := "final", ssid := some "Home",
                            password := some "secret123", encryption := some "WPA" } } :
        UserData) =
      (({ currentDataType := none, wifiData := none } : UserData),
       some (create_wifi "Home" "secret123" "WPA")) := by
  exact claim5_thm.2.1
    ({ currentDataType := some "wifi",
       wifiData := some { step := "final", ssid := some "Home",
                          password := some "secret123", encryption := some "WPA" } } : UserData)
    { step := "final", ssid := some "Home",
      password := some "secret123", encryption := some "WPA" }
    "Home" rfl rfl

/-! ### Claim C6 — the phone-encoder cleaning rule -/

/-- C6 counterexample: on `"1+2"` the encoder keeps the inner `+` and yields
`tel:1+2`, while the claim's leading-plus-only rule predicts `tel:12`. -/
theorem claim6_counterexample :
    create_phone "1+2" = "tel:1+2" ∧ claimedPhonePayload "1+2" = "tel:12" ∧
    ("tel:1+2" : String) ≠ "tel:12" := by
  exact ⟨rfl, rfl, by decide⟩

/-- C6 (corrected): the encoder keeps every digit and EVERY `+`, wherever it
occurs; it coincides with the claimed leading-plus-only rule exactly on the
inputs with no `+` past the first character, which covers the spec's example
`"+1 (234) 567-890" ↦ "tel:+1234567890"`. -/
theorem claim6_thm :
    (∀ s : String, create_phone s = claimedPhonePayload s ↔ '+' ∉ s.data.drop 1) ∧
    create_phone "+1 (234) 567-890" = "tel:+1234567890" := by
  exact ⟨create_phone_eq_claimed_iff, rfl⟩

/-- C6 witness: the equivalence applied at the spec's example (which has no
non-leading `+`). -/
theorem claim6_witness :
    create_phone "+1 (234) 567-890" = claimedPhonePayload "+1 (234) 567-890" := by
  exact (claim6_thm.1 "+1 (234) 567-890").mpr (by decide)

/-! ### Claim C7 — the text-catalog fallback order -/

/-- C7 counterexample: with the key present in the default locale and the
requested locale loaded but lacking the key, the lookup returns the
placeholder instead of falling back to the default locale's translation. -/
theorem claim7_counterexample :
    get_text trCatalogTwo "ru" "greet" = "[greet]" ∧
    get_text trCatalogTwo "en" "greet" = "hello" ∧
    ("[greet]" : String) ≠ "hello" := by
  exact ⟨rfl, rfl, by decide⟩

/-- C7 (corrected): an unknown locale falls back to the default locale; once
a locale table is selected, a present key returns its translation there and a
missing key returns the bracketed placeholder immediately — there is no
cross-locale fallback on a missing key.  The placeholder is also returned
when even the default locale is absent. -/
theorem claim7_thm :
    (∀ (tr : Translations) (lang key : String) (m : List (String × String)) (v : String),
      List.lookup lang tr = some m → List.lookup key m = some v →
      get_text tr lang key = v) ∧
    (∀ (tr : Translations) (lang key : String) (m : List (String × String)),
      List.lookup lang tr = none → List.lookup DEFAULT_LANGUAGE tr = some m →
      get_text tr lang key = (List.lookup key m).getD ("[" ++ key ++ "]")) ∧
    (∀ (tr : Translations) (lang key : String) (m : List (String × String)),
      List.lookup lang tr = some m → List.lookup key m = none →
      get_text tr lang key = "[" ++ key ++ "]") ∧
    (∀ (tr : Translations) (lang key : String),
      List.lookup lang tr = none → List.lookup DEFAULT_LANGUAGE tr = none →
      get_text tr lang key = "[" ++ key ++ "]") := by
  refine ⟨?_, ?_, ?_, ?_⟩
  · intro tr lang key m v h1 h2
    simp [get_text, h1, h2]
  · intro tr lang key m h1 h2
    simp [get_text, h1, h2]
  · intro tr lang key m h1 h2
    simp [get_text, h1, h2]
  · intro tr lang key h1 h2
    simp [get_text, h1, h2]

/-- C7 witness: the in-locale hit and the missing-key placeholder applied at
the two-locale fixture catalog. -/
theorem claim7_witness :
    get_text trCatalogTwo "en" "greet" = "hello" ∧
    get_text trCatalogTwo "ru" "greet" = "[" ++ "greet" ++ "]" := by
  constructor
  · exact claim7_thm.1 trCatalogTwo "en" "greet" [("greet", "hello")] "hello" rfl rfl
  · exact claim7_thm.2.2.1 trCatalogTwo "ru" "greet" [] rfl rfl

/-! ### Claim C8 — cancel destroys the whole session -/

/-- C8 (confirmed): for any state with an active session — a wifi session, a
generic multi-step session, or a single-input session — sending the localized
cancel keyword removes `current_data_type`, `wifi_data` and `multi_step_data`
in one step, leaving exactly the idle state (with the language preserved), so
the next event is dispatched as if no operation had been started.  The
hypotheses are catalog-sanity conditions forced by the string-dispatch: the
cancel label differs from the other menu labels (the wifi and multi-step
shapes are never both populated in a reachable state, which the first
hypothesis records). -/
theorem claim8_thm :
    ∀ (tr : Translations) (ud : UserData),
      (ud.wifiData.isSome → ud.multiStepData = none) →
      get_text tr (getUserLang ud) "cancel" ≠ get_text tr (getUserLang ud) "skip" →
      get_text tr (getUserLang ud) "cancel" ≠ get_text tr (getUserLang ud) "create_qr" →
      get_text tr (getUserLang ud) "cancel" ≠ get_text tr (getUserLang ud) "help" →
      get_text tr (getUserLang ud) "cancel" ≠ get_text tr (getUserLang ud) "language" →
      get_text tr (getUserLang ud) "cancel" ∉ dataTypeLabels tr (getUserLang ud) →
      get_text tr (getUserLang ud) "cancel" ≠ get_text tr (getUserLang ud) "back" →
      handleDynamicText tr ud (get_text tr (getUserLang ud) "cancel") =
        ({ language := ud.language, currentDataType := none, wifiData := none,
           multiStepData := none }, none) := by
  intro tr ud h1 h2 h3 h4 h5 h6 h7
  obtain ⟨lng, cdt, wd, msd⟩ := ud
  cases wd with
  | some w =>
    have hmsd : msd = none := h1 rfl
    subst hmsd
    simp [handleDynamicText, handleWifiInput]
  | none =>
    cases msd with
    | some m =>
      simp [handleDynamicText, handleMultiStepInput, h2, cancelOperation]
    | none =>
      simp [handleDynamicText, h3, h4, h5, h6, h7, cancelOperation]

/-- C8 witness: the theorem applied at a wifi session, a multi-step location
session, and a single-input text session, with the placeholder catalog. -/
theorem claim8_witness :
    handleDynamicText trEmpty wifiSessionAtSsid
        (get_text trEmpty (getUserLang wifiSessionAtSsid) "cancel") =
      (({ } : UserData), none) ∧
    handleDynamicText trEmpty locationSessionStep2
        (get_text trEmpty (getUserLang locationSessionStep2) "cancel") =
      (({ } : UserData), none) ∧
    handleDynamicText trEmpty textSession
        (get_text trEmpty (getUserLang textSession) "cancel") =
      (({ } : UserData), none) := by
  refine ⟨?_, ?_, ?_⟩
  · exact claim8_thm trEmpty wifiSessionAtSsid (fun _ => rfl) (by decide) (by decide)
      (by decide) (by decide) (by decide) (by decide)
  · exact claim8_thm trEmpty locationSessionStep2 (fun h => by cases h) (by decide)
      (by decide) (by decide) (by decide) (by decide) (by decide)
  · exact claim8_thm trEmpty textSession (fun h => by cases h) (by decide) (by decide)
      (by decide) (by decide) (by decide) (by decide)

/-! ### Claim C9 — the coordinate range and the latitude 200 example -/

/-- C9 counterexample: `validate_coordinate "200"` is `false` — 200 is
outside `[-180, 180]` — so the location flow rejects latitude `"200"` and
stays at step 1, contradicting the claim that it is accepted and produces
`geo:200,56.78`. -/
theorem claim9_counterexample :
    validate_coordinate "200" = false ∧
    handleDynamicText trEmpty locationSessionStep1 "200" = (locationSessionStep1, none) := by
  exact ⟨by decide, rfl⟩

/-- C9 (corrected): the coordinate validator accepts exactly the strings that
parse as a decimal number in `[-180, 180]`, with no latitude-specific `[-90,
90]` tightening — so latitude `"150"` (far outside the latitude range) is
accepted and yields `geo:150,56.78`, while `"200"` is rejected; the regular
flow with `"12.34"`, `"56.78"` produces `geo:12.34,56.78`. -/
theorem claim9_thm :
    (∀ s : String, validate_coordinate s = true ↔
      ∃ q : ℚ, pyFloatVal s = some q ∧ -180 ≤ q ∧ q ≤ 180) ∧
    validate_coordinate "12.34" = true ∧
    validate_coordinate "56.78" = true ∧
    validate_coordinate "150" = true ∧
    validate_coordinate "200" = false ∧
    handleDynamicText trEmpty locationSessionStep1 "12.34" = (locationSessionStep2, none) ∧
    handleDynamicText trEmpty locationSessionStep2 "56.78" =
      (({ currentDataType := none, multiStepData := none } : UserData),
       some "geo:12.34,56.78") ∧
    create_location "150" "56.78" = "geo:150,56.78" := by
  refine ⟨?_, by decide, by decide, by decide, by decide, by decide, by decide, rfl⟩
  intro s
  cases h : pyFloatRep s with
  | none => simp [validate_coordinate, pyFloatVal, h]
  | some p =>
    obtain ⟨n, k⟩ := p
    simp only [validate_coordinate, pyFloatVal, h, Option.map, Option.some.injEq]
    rw [decide_eq_true_iff]
    have hpow : (0 : ℚ) < (10 : ℚ) ^ k := by positivity
    constructor
    · rintro ⟨ha, hb⟩
      refine ⟨(n : ℚ) / (10 : ℚ) ^ k, rfl, ?_, ?_⟩
      · rw [le_div_iff₀ hpow]
        exact_mod_cast ha
      · rw [div_le_iff₀ hpow]
        exact_mod_cast hb
    · rintro ⟨q, hq, ha, hb⟩
      rw [← hq] at ha hb
      constructor
      · have := (le_div_iff₀ hpow).mp ha
        exact_mod_cast this
      · have := (div_le_iff₀ hpow).mp hb
        exact_mod_cast this

/-- C9 witness: the range characterization applied at `"150"`, whose parsed
value `150` lies within `[-180, 180]`. -/
theorem claim9_witness : validate_coordinate "150" = true := by
  exact (claim9_thm.1 "150").mpr
    ⟨(150 : ℚ) / (10 : ℚ) ^ 0, rfl, by norm_num, by norm_num⟩

/-! ### Claim C10 — the undocumented 500-character text limit -/

/-- C10 (confirmed): for the `text` data type, an input longer than 500
characters is rejected with the `text_too_long` error and the single-input
handler changes nothing; an input of at most 500 characters passes validation
and is encoded as the identity payload, and (when nonempty, so that the
empty-payload guard does not fire) the handler emits it and clears the data
type. -/
theorem claim10_thm :
    (∀ s : String, 500 < s.length → validateInputError "text" s = some "text_too_long") ∧
    (∀ s : String, s.length ≤ 500 →
      validateInput "text" s = true ∧ generateQrData "text" s = s) ∧
    (∀ (ud : UserData) (s : String), ud.currentDataType = some "text" →
      500 < s.length → handleSingleInput ud s = (ud, none)) ∧
    (∀ (ud : UserData) (s : String), ud.currentDataType = some "text" →
      s.length ≤ 500 → s ≠ "" →
      handleSingleInput ud s = ({ ud with currentDataType := none }, some s)) := by
  refine ⟨?_, ?_, ?_, ?_⟩
  · intro s h
    simp [validateInputError, h]
  · intro s h
    constructor
    · simp [validateInput, validateInputError]
      omega
    · rfl
  · intro ud s hud h
    have hv : validateInput "text" s = false := by
      simp [validateInput, validateInputError, h]
    simp [handleSingleInput, hud, hv]
  · intro ud s hud h hne
    have hv : validateInput "text" s = true := by
      simp [validateInput, validateInputError]
      omega
    have hqr : generateQrData "text" s = s := rfl
    simp [handleSingleInput, hud, hv, hqr, hne]

/-- C10 witness: a 501-character input is rejected with `text_too_long`; the
input `"hello"` is accepted and emitted as its own payload. -/
theorem claim10_witness :
    validateInputError "text" longText = some "text_too_long" ∧
    handleSingleInput textSession "hello" =
      (({ } : UserData), some "hello") := by
  constructor
  · apply claim10_thm.1 longText
    have h : longText.length = (List.replicate 501 'a').length := rfl
    rw [h, List.length_replicate]
    decide
  · exact claim10_thm.2.2.2 textSession "hello" rfl (by decide) (by decide)
